import Mathlib

/-!
Verification of the operator's lifecycle coordinator and configuration
validator against their natural-language specification.

The development shallowly embeds the Go source:

* the termination-watcher goroutine of `main` (source `main.go`, the
  goroutine spawned at lines 294-353) becomes a pure function over the
  stream of query results the cluster returns;
* `verifyConfiguration` (lines 587-609) becomes a pure function over the
  outcomes of the two secret lookups it performs;
* `validateCustomResource` and its helpers (the installation validator)
  become pure functions over an explicit document type.

Machine timing is made explicit: every `time.Sleep(1 * time.Second)` in a
loop advances a natural-number clock by one, so "the poll at elapsed
second t" is the poll at loop index t.
-/

/-! ## Termination watcher (main.go lines 293-353)

The goroutine waits for the termination signal, then queries the
`Installation` resource.  A query can succeed (the resource exists, with
or without a deletion timestamp), report NotFound, or fail with any other
error.  `q i` is the result of the (i+1)-th `client.Get` call the
goroutine makes. -/

/-- Result of one `client.Get` on the Installation resource, as the
watcher distinguishes them: `errors.IsNotFound(err)`, any other error,
or success carrying whether `DeletionTimestamp != nil`. -/
inductive InstQuery where
  | notFound
  | queryError
  | found (deleting : Bool)
deriving DecidableEq

/-- Result of the initial query loop (source lines 304-323): exit because
there is no Installation, give up after too many failed queries, or
proceed holding the deletion flag of the fetched Installation.  `next` is
the index of the first query the later wait loop would issue. -/
inductive InitRes where
  | noInstall
  | gaveUp
  | proceed (deleting : Bool) (next : Nat)
deriving DecidableEq

/-- The 1-second sleep between failed initial queries (source line 317). -/
def initialRetrySleepSeconds : Nat := 1

/-- The retry bound of the initial query loop: `if retries >= 5`
(source line 311). -/
def maxInitialRetries : Nat := 5

/-- The initial query loop, source lines 304-323: on NotFound return
immediately; on any other error retry after a 1-second sleep unless
`retries >= 5` already failed, in which case log and give up; on success
break out of the loop.  `i` is the index of the next query.  The source
counts failures upwards from `retries = 0`; the recursion here carries
the remaining tolerated failures `rl = 5 - retries`, so `rl = 0` exactly
when `retries >= 5`. -/
def initialLoop (q : Nat → InstQuery) : Nat → Nat → InitRes
  | i, rl =>
    match q i with
    | .notFound => .noInstall
    | .found d => .proceed d (i + 1)
    | .queryError =>
        match rl with
        | 0 => .gaveUp
        | rl' + 1 => initialLoop q (i + 1) rl'

/-- The initial query loop as `main` enters it: first query index 0,
no failures yet. -/
def initialPoll (q : Nat → InstQuery) : InitRes :=
  initialLoop q 0 maxInitialRetries

/-- Outcome of the whole termination goroutine.  `gracefulComplete t`
records the elapsed time, in seconds, of the wait-loop query that
observed NotFound (the loop sleeps 1 second per iteration, so iteration
t runs t seconds after the wait began). -/
inductive WatchOutcome where
  | exitNoInstall
  | gaveUpErrors
  | exitNotDeleting
  | gracefulComplete (t : Nat)
  | timedOut
deriving DecidableEq

/-- The timeout of the graceful wait: `to := 60 * time.Second`
(source line 332). -/
def gracefulWaitSeconds : Nat := 60

/-- The sleep between wait-loop queries: `time.Sleep(1 * time.Second)`
(source line 350). -/
def waitLoopSleepSeconds : Nat := 1

/-- The bounded wait loop, source lines 335-352.  Iteration `k` runs at
elapsed second `k` (each non-exiting iteration ends with a 1-second
sleep, line 350, so one iteration per second).  The `select` takes the
timeout branch once 60 seconds have elapsed, i.e. when `60 - k` seconds
remain is zero; the recursion carries the remaining seconds `r = 60 - k`.
Otherwise the loop issues query `j + k` and exits only when it reports
NotFound - success and errors both just log and continue. -/
def waitLoop (q : Nat → InstQuery) (j : Nat) : Nat → Nat → WatchOutcome
  | _, 0 => .timedOut
  | k, r + 1 =>
    if q (j + k) = .notFound then .gracefulComplete k
    else waitLoop q j (k + 1) r

/-- Number of queries the wait loop issues before it returns (model
instrumentation for the poll cadence: one query per elapsed second of
the 60-second window). -/
def waitPollTally (q : Nat → InstQuery) (j : Nat) : Nat → Nat → Nat
  | _, 0 => 0
  | k, r + 1 =>
    if q (j + k) = .notFound then 1
    else 1 + waitPollTally q j (k + 1) r

/-- The whole termination goroutine, source lines 294-353: run the
initial query loop; exit if there is no Installation or too many query
failures; exit immediately if the Installation has no deletion
timestamp (line 325); otherwise enter the bounded wait with the full
60-second budget. -/
def terminationWatcher (q : Nat → InstQuery) : WatchOutcome :=
  match initialPoll q with
  | .noInstall => .exitNoInstall
  | .gaveUp => .gaveUpErrors
  | .proceed false _ => .exitNotDeleting
  | .proceed true j => waitLoop q j 0 gracefulWaitSeconds

/-! ## Preflight external-store consistency check
(`verifyConfiguration`, main.go lines 587-609) -/

/-- Result of one `Secrets(...).Get`, as `verifyConfiguration`
distinguishes them. -/
inductive SecretGet where
  | found
  | notFound
  | otherError
deriving DecidableEq

/-- The errors `verifyConfiguration` can return. -/
inductive VerifyErr where
  | unexpectedInternalCheck
  | internalSecretFound
  | unexpectedExternalCheck
  | externalSecretFound
deriving DecidableEq

/-- `verifyConfiguration`, source lines 588-609.  When configured for
external log storage, the internal-storage certificate secret
(`TigeraElasticsearchInternalCertSecret`) must be absent; when
configured for internal storage, the external-storage secret
(`ExternalCertsSecret`) must be absent.  NotFound is success; any other
lookup failure is reported as an unexpected error. -/
def verifyConfiguration (elasticExternal : Bool)
    (internalCertGet externalCertGet : SecretGet) : Option VerifyErr :=
  if elasticExternal then
    match internalCertGet with
    | .notFound => none
    | .otherError => some .unexpectedInternalCheck
    | .found => some .internalSecretFound
  else
    match externalCertGet with
    | .notFound => none
    | .otherError => some .unexpectedExternalCheck
    | .found => some .externalSecretFound

/-! ## Configuration validator: data model

The validator `validateCustomResource` lives in the sampled source
(package `installation`); the document type it validates
(`operatorv1.InstallationSpec`) is repository code outside the sample,
so its shape is modelled from the spec (section 3 of the design
document).  The enum types of the Go API are string types; they are kept
as `String` here, with the named constants the validator compares
against. -/

def PluginCalico : String := "Calico"

def PluginGKE : String := "GKE"

def PluginAmazonVPC : String := "AmazonVPC"

def PluginAzureVNET : String := "AzureVNET"

def IPAMPluginCalico : String := "Calico"

def IPAMPluginHostLocal : String := "HostLocal"

def IPAMPluginAmazonVPC : String := "AmazonVPC"

def IPAMPluginAzureVNET : String := "AzureVNET"

def ProviderGKE : String := "GKE"

def ProviderEKS : String := "EKS"

def ProviderAKS : String := "AKS"

def EncapsulationIPIP : String := "IPIP"

def EncapsulationIPIPCrossSubnet : String := "IPIPCrossSubnet"

def EncapsulationVXLAN : String := "VXLAN"

def EncapsulationVXLANCrossSubnet : String := "VXLANCrossSubnet"

def EncapsulationNone : String := "None"

def LinuxDataplaneIptables : String := "Iptables"

def LinuxDataplaneBPF : String := "BPF"

def LinuxDataplaneVPP : String := "VPP"

def LinuxDataplaneNftables : String := "Nftables"

def BGPEnabled : String := "Enabled"

def BGPDisabled : String := "Disabled"

def HostPortsEnabled : String := "Enabled"

def HostPortsDisabled : String := "Disabled"

/-- The two legal HostPorts values (`operatorv1.HostPortsTypes`). -/
def hostPortsTypes : List String := [HostPortsEnabled, HostPortsDisabled]

def NonPrivilegedEnabled : String := "Enabled"

def VariantCalico : String := "Calico"

def VariantTigeraSecureEnterprise : String := "TigeraSecureEnterprise"

def FIPSModeEnabled : String := "Enabled"

def RollingUpdateType : String := "RollingUpdate"

def BinarySI : String := "BinarySI"

def ComponentNameNode : String := "Node"

def ComponentNameTypha : String := "Typha"

def ComponentNameKubeControllers : String := "KubeControllers"

/-- Modelled from the spec: a `resource.Quantity` as the CNI log-size
check reads it - its format family and its integer value. -/
structure ResourceQuantity where
  format : String
  value : Int
deriving DecidableEq

/-- Modelled from the spec: the CNI log-rotation fields (max file count,
max size, max age), each optional. -/
structure CNILogging where
  logFileMaxCount : Option Int
  logFileMaxSize : Option ResourceQuantity
  logFileMaxAgeDays : Option Int
deriving DecidableEq

/-- Modelled from the spec: `spec.logging`, holding the optional CNI
logging limits. -/
structure LoggingSpec where
  cni : Option CNILogging
deriving DecidableEq

/-- Modelled from the spec: one IP pool - a CIDR string and an
encapsulation mode (the empty string when not yet defaulted). -/
structure IPPool where
  cidr : String
  encapsulation : String
deriving DecidableEq

/-- Modelled from the spec: one per-family node-address autodetection
configuration.  String fields are unset when empty, mirroring the
`len(x) != 0` tests of the source. -/
structure NodeAddressAutodetection where
  interface : String
  skipInterface : String
  canReach : String
  firstFound : Option Bool
  cidrs : List String
  kubernetes : Option String
deriving DecidableEq

/-- Modelled from the spec: `spec.calicoNetwork`. -/
structure CalicoNetworkSpec where
  linuxDataplane : Option String
  ipPools : List IPPool
  bgp : Option String
  nodeAddressAutodetectionV4 : Option NodeAddressAutodetection
  nodeAddressAutodetectionV6 : Option NodeAddressAutodetection
  hostPorts : Option String
  multiInterfaceMode : Option String
  containerIPForwarding : Option String
  sysctl : Option (List (String × String))
  linuxPolicySetupTimeoutSeconds : Option Int
deriving DecidableEq

/-- Modelled from the spec: the IPAM sub-configuration of `spec.cni`. -/
structure IPAMSpec where
  type : String
deriving DecidableEq

/-- Modelled from the spec: `spec.cni`. -/
structure CNISpec where
  type : String
  ipam : IPAMSpec
deriving DecidableEq

/-- Modelled from the spec: one `spec.componentResources` entry, of
which the validator only reads the component name. -/
structure ComponentResource where
  componentName : String
deriving DecidableEq

/-- Modelled from the spec: a per-workload pod-template override.  The
validator delegates its field validation to injectable per-workload
policies and, for the node DaemonSet, reads the override's
init-container names for the mutual-exclusion rule; only those names
are modelled. -/
structure PodOverride where
  initContainerNames : List String
deriving DecidableEq

/-- Modelled from the spec: the desired-state document
(`operatorv1.InstallationSpec`), restricted to the fields
`validateCustomResource` reads. -/
structure InstallationSpec where
  variant : String
  cni : Option CNISpec
  calicoNetwork : Option CalicoNetworkSpec
  logging : Option LoggingSpec
  kubernetesProvider : String
  flexVolumePath : String
  kubeletVolumePluginPath : String
  nodeUpdateStrategyType : String
  controlPlaneNodeSelector : Option (List (String × String))
  controlPlaneReplicas : Option Int
  componentResources : List ComponentResource
  nonPrivileged : Option String
  calicoNodeDaemonSet : Option PodOverride
  calicoNodeWindowsDaemonSet : Option PodOverride
  calicoKubeControllersDeployment : Option PodOverride
  typhaDeployment : Option PodOverride
  csiNodeDriverDaemonSet : Option PodOverride
  serviceCIDRs : List String
  windowsNodes : Option Unit
  fipsMode : Option String
  azure : Option Unit
deriving DecidableEq

/-- Modelled from the spec: the already-resolved ClusterFacts bundle -
the Windows-enablement flag (`common.WindowsEnabled`) and the
service-endpoint ConfigMap's host and port (`k8sapi.Endpoint`). -/
structure ClusterFacts where
  windowsEnabled : Bool
  endpointHost : String
  endpointPort : String
deriving DecidableEq

/-- Modelled from the spec: the delegated checks the validator calls as
external collaborators - the Go standard library's `net.ParseCIDR`
(captured by its success verdict), the sysctl allow-list check
(`utils.VerifySysctl`) and the five injectable per-workload override
validators, each returning an error message or success. -/
structure Externals where
  parseCIDRok : String → Bool
  verifySysctl : List (String × String) → Option String
  validateNodeDS : PodOverride → Option String
  validateNodeWinDS : PodOverride → Option String
  validateKubeControllers : PodOverride → Option String
  validateTypha : PodOverride → Option String
  validateCSI : PodOverride → Option String

/-- The rule violations `validateCustomResource` can report, one
constructor per `return fmt.Errorf` exit of the source, in source
order; arguments carry the values the source interpolates. -/
inductive VError where
  | cniNotDefined
  | ipamIncompatible (ipam cni : String)
  | providerIncompatible (provider cni : String)
  | logFileMaxCountNonPositive
  | logFileMaxSizeBadFormat
  | logFileMaxAgeNonPositive
  | invalidCNIType (cni : String)
  | autodetectV4RequiredForBPF
  | ipipOnIPv6Pool (cidr : String)
  | autodetectV6RequiredForBPF
  | ipipRequiresBGP
  | unencapsulatedRequiresBGP
  | vxlanInvalidWithHostLocal (encap : String)
  | encapInvalidForNonCalicoCNI (encap : String)
  | bgpNotSupportedNonCalicoCNI
  | vppRequiresCalicoVariant (variant : String)
  | vppRequiresCalicoCNI (cni : String)
  | vppRequiresBGP
  | vppRequiresHostPorts
  | invalidAutodetectCIDR (cidr : String)
  | autodetectExclusive
  | hostPortsOnlyCalicoCNI
  | invalidHostPorts (hp : String)
  | sysctlInvalid (msg : String)
  | policySetupTimeoutNegative
  | policySetupTimeoutRequiresDataplane
  | policySetupTimeoutWrongDataplane
  | multiInterfaceModeOnlyCalicoCNI
  | containerIPForwardingOnlyCalicoCNI
  | flexVolumePathNotAbs (p : String)
  | kubeletVolumePluginPathNotAbs (p : String)
  | nodeUpdateStrategyUnsupported
  | controlPlaneNodeSelectorOS (key v : String)
  | controlPlaneReplicasNonPositive
  | componentResourceUnsupported (name : String)
  | nonPrivilegedBPF
  | nonPrivilegedEnterprise
  | nodeDSInvalid (e1 e2 : Option String)
  | nodeWinDSInvalid (e : String)
  | kubeControllersDeployInvalid (e : String)
  | typhaDeployInvalid (e : String)
  | csiDSInvalid (e : String)
  | cniLoggingNonCalico
  | winEndpointMissing
  | winServiceCIDRsRequired
  | winV4EncapUnsupported (encap : String)
  | windowsNodesNotValid
  | fipsWithEnterprise
  | azureOnlyAKS
deriving DecidableEq

/-- The human-readable message of a violation.  The only message a claim
pins verbatim is the one for an undefined `spec.cni`; the others
paraphrase the source's format strings (quotation marks dropped). -/
def VError.message : VError → String
  | .cniNotDefined => "spec.cni must be defined"
  | .ipamIncompatible i c => "spec.cni.ipam.type " ++ i ++ " is not compatible with spec.cni.type " ++ c
  | .providerIncompatible pr c => "spec.kubernetesProvider " ++ pr ++ " is not compatible with spec.cni.type " ++ c
  | .logFileMaxCountNonPositive => "spec.loggingConfig.cni.logFileMaxCount value should be greater than zero"
  | .logFileMaxSizeBadFormat => "spec.Logging.cni.logFileMaxSize format is not corrent. Suffix should be Ki | Mi | Gi | Ti | Pi | Ei"
  | .logFileMaxAgeNonPositive => "spec.Logging.cni.logFileMaxAgeDays should be a positive non-zero integer"
  | .invalidCNIType c => "Invalid value " ++ c ++ " for spec.cni.type"
  | .autodetectV4RequiredForBPF => "spec.calicoNetwork.nodeAddressAutodetectionV4 is required for the BPF dataplane"
  | .ipipOnIPv6Pool c => "IPIP encapsulation is not supported by IPv6 pools, but it is set for " ++ c
  | .autodetectV6RequiredForBPF => "spec.calicoNetwork.nodeAddressAutodetectionV6 is required for the BPF dataplane"
  | .ipipRequiresBGP => "IPIP encapsulation requires that BGP is enabled"
  | .unencapsulatedRequiresBGP => "Unencapsulated IP pools require that BGP is enabled"
  | .vxlanInvalidWithHostLocal e => e ++ " is invalid for ipPool.encapsulation with Calico CNI and HostLocal IPAM"
  | .encapInvalidForNonCalicoCNI e => e ++ " is invalid for ipPool.encapsulation when using non-Calico CNI, should be None"
  | .bgpNotSupportedNonCalicoCNI => "BGP is not supported when using non-Calico CNI"
  | .vppRequiresCalicoVariant v => "The VPP dataplane only supports the Calico variant (configured: " ++ v ++ ")"
  | .vppRequiresCalicoCNI c => "The VPP dataplane only supports the Calico CNI (configured: " ++ c ++ ")"
  | .vppRequiresBGP => "VPP requires BGP to be enabled"
  | .vppRequiresHostPorts => "VPP doesnt support disabling HostPorts"
  | .invalidAutodetectCIDR c => "invalid CIDR provided for node address autodetection: " ++ c
  | .autodetectExclusive => "no more than one node address autodetection method can be specified per-family"
  | .hostPortsOnlyCalicoCNI => "spec.calicoNetwork.hostPorts is supported only for Calico CNI"
  | .invalidHostPorts hp => hp ++ " is invalid for HostPorts, it should be one of Enabled,Disabled"
  | .sysctlInvalid m => m
  | .policySetupTimeoutNegative => "spec.calicoNetwork.linuxPolicySetupTimeoutSeconds negative value is not valid"
  | .policySetupTimeoutRequiresDataplane => "spec.calicoNetwork.linuxPolicySetupTimeoutSeconds requires the Iptables Linux dataplane to be set"
  | .policySetupTimeoutWrongDataplane => "spec.calicoNetwork.linuxPolicySetupTimeoutSeconds is supported only for the Iptables, Nftables and BPF Linux dataplanes"
  | .multiInterfaceModeOnlyCalicoCNI => "spec.calicoNetwork.multiInterfaceMode is supported only for Calico CNI"
  | .containerIPForwardingOnlyCalicoCNI => "spec.calicoNetwork.containerIPForwarding is supported only for Calico CNI"
  | .flexVolumePathNotAbs p => "Installation spec.FlexVolumePath " ++ p ++ " is not an absolute path"
  | .kubeletVolumePluginPathNotAbs p => "Installation spec.KubeletVolumePluginPath " ++ p ++ " is not an absolute path"
  | .nodeUpdateStrategyUnsupported => "Installation spec.NodeUpdateStrategy.type is not supported"
  | .controlPlaneNodeSelectorOS k v => "Installation spec.ControlPlaneNodeSelector " ++ k ++ "=" ++ v ++ " is not supported"
  | .controlPlaneReplicasNonPositive => "Installation spec.ControlPlaneReplicas should be greater than 0"
  | .componentResourceUnsupported n => "Installation spec.ComponentResources.ComponentName " ++ n ++ " is not supported"
  | .nonPrivilegedBPF => "Non-privileged Calico is not supported when BPF dataplane is enabled"
  | .nonPrivilegedEnterprise => "Non-privileged Calico is not supported for spec.Variant=TigeraSecureEnterprise"
  | .nodeDSInvalid e1 e2 => "Installation spec.CalicoNodeDaemonSet is not valid: " ++ (e1.getD "") ++ (e2.getD "")
  | .nodeWinDSInvalid e => "Installation spec.CalicoNodeWindowsDaemonSet is not valid: " ++ e
  | .kubeControllersDeployInvalid e => "Installation spec.CalicoKubeControllersDeployment is not valid: " ++ e
  | .typhaDeployInvalid e => "Installation spec.TyphaDeployment is not valid: " ++ e
  | .csiDSInvalid e => "Installation spec.CSINodeDriverDaemonSet is not valid: " ++ e
  | .cniLoggingNonCalico => "Installation spec.Logging.cni is not valid and should not be provided when spec.cni.type is Not Calico"
  | .winEndpointMissing => "Services endpoint configmap does not have all required information for Calico Windows daemonset configuration"
  | .winServiceCIDRsRequired => "Installation spec.ServiceCIDRs must be provided when using Calico CNI on Windows"
  | .winV4EncapUnsupported e => "IPv4 IPPool encapsulation " ++ e ++ " is not supported by Calico for Windows"
  | .windowsNodesNotValid => "Installation spec.WindowsNodes is not valid and should not be provided when Calico for Windows is disabled"
  | .fipsWithEnterprise => "Installation spec.FIPSMode=Enabled combined with spec.Variant=TigeraSecureEnterprise is not supported"
  | .azureOnlyAKS => "Installation spec.Azure should be set only for AKS provider"

/-! ## Configuration validator: the checks

`firstErr a b` is the fail-fast composition of two checks: the source
returns from the first failed check, so a later check is only reached
when every earlier one returned nil. -/

/-- Fail-fast composition: the first violation wins. -/
def firstErr : Option VError → Option VError → Option VError
  | some e, _ => some e
  | none, b => b

/-- Go `path.IsAbs`: a path is absolute when it starts with a slash. -/
def pathIsAbs (p : String) : Bool := p.startsWith "/"

/-- Go `strings.Contains(cidr, ":")`, the source's IPv6 test, phrased
over the string's characters. -/
def containsColon (cidr : String) : Bool := cidr.data.contains ':'

/-- The CIDR-parsing loop of `validateNodeAddressDetection` (source
lines 1479-1484): the first CIDR `net.ParseCIDR` rejects. -/
def firstBadCIDR (ext : Externals) : List String → Option String
  | [] => none
  | c :: rest => if ext.parseCIDRok c then firstBadCIDR ext rest else some c

/-- The `numEnabled` count of `validateNodeAddressDetection` (source
lines 1464-1489): one per configured autodetection method - a non-empty
interface, skip-interface or can-reach, an explicit firstFound=true, a
non-empty CIDR list, a kubernetes source. -/
def numEnabledMethods (ad : NodeAddressAutodetection) : Nat :=
  (if ad.interface.length ≠ 0 then 1 else 0)
  + (if ad.skipInterface.length ≠ 0 then 1 else 0)
  + (if ad.canReach.length ≠ 0 then 1 else 0)
  + (if ad.firstFound = some true then 1 else 0)
  + (if ad.cidrs.length ≠ 0 then 1 else 0)
  + (if ad.kubernetes.isSome then 1 else 0)

/-- `validateNodeAddressDetection` (source lines 1463-1495): count the
configured autodetection methods; while counting, the CIDR list is
parse-checked and the first invalid CIDR is reported before the
exclusivity verdict; more than one configured method is an error. -/
def validateNodeAddressDetection (ext : Externals)
    (ad : NodeAddressAutodetection) : Option VError :=
  match (if ad.cidrs.length ≠ 0 then firstBadCIDR ext ad.cidrs else none) with
  | some c => some (.invalidAutodetectCIDR c)
  | none => if 1 < numEnabledMethods ad then some .autodetectExclusive else none

/-- `validateHostPorts` (source lines 1497-1514): the value must be one
of the legal HostPorts values. -/
def validateHostPorts (hp : String) : Option VError :=
  if hostPortsTypes.contains hp then none else some (.invalidHostPorts hp)

/-- The scan of `validateExclusiveInitContainers` (source lines
1446-1460): walk the init-container names, flagging the two reserved
names, and fail as soon as both have been seen. -/
def exclusiveInitScan : List String → Bool → Bool → Option String
  | [], _, _ => none
  | c :: rest, m, e =>
    let m2 := if c = "mount-bpffs" then true else m
    let e2 := if c = "ebpf-bootstrap" then true else e
    if m2 && e2 then
      some "Init container names mount-bpffs and ebpf-bootstrap are mutually exclusive, please remove one of them"
    else exclusiveInitScan rest m2 e2

/-- `validateExclusiveInitContainers` as called on an override's
init-container names. -/
def validateExclusiveInitContainers (names : List String) : Option String :=
  exclusiveInitScan names false false

/-- The per-Calico-CNI logging checks (source lines 1083-1099). -/
def calicoCNILoggingErr (ologging : Option LoggingSpec) : Option VError :=
  match ologging with
  | none => none
  | some lg =>
    match lg.cni with
    | none => none
    | some c =>
      firstErr
        (match c.logFileMaxCount with
          | some v => if v ≤ 0 then some .logFileMaxCountNonPositive else none
          | none => none)
        (firstErr
          (match c.logFileMaxSize with
            | some qn =>
                if qn.format ≠ BinarySI ∨ qn.value ≤ 0 then some .logFileMaxSizeBadFormat
                else none
            | none => none)
          (match c.logFileMaxAgeDays with
            | some v => if v ≤ 0 then some .logFileMaxAgeNonPositive else none
            | none => none))

/-- The CNI-plugin switch (source lines 1065-1153): per CNI type, the
provider restriction and the IPAM allow-set; an unrecognized CNI type is
itself an error.  For the Calico CNI the logging limits are checked in
the same case. -/
def cniPluginErr (cni : CNISpec) (provider : String)
    (ologging : Option LoggingSpec) : Option VError :=
  if cni.type = PluginCalico then
    firstErr
      (if cni.ipam.type = IPAMPluginCalico ∨ cni.ipam.type = IPAMPluginHostLocal then none
       else some (.ipamIncompatible cni.ipam.type cni.type))
      (calicoCNILoggingErr ologging)
  else if cni.type = PluginGKE then
    firstErr
      (if provider = ProviderGKE ∨ provider = "" then none
       else some (.providerIncompatible provider cni.type))
      (if cni.ipam.type = IPAMPluginHostLocal then none
       else some (.ipamIncompatible cni.ipam.type cni.type))
  else if cni.type = PluginAmazonVPC then
    firstErr
      (if provider = ProviderEKS ∨ provider = "" then none
       else some (.providerIncompatible provider cni.type))
      (if cni.ipam.type = IPAMPluginAmazonVPC then none
       else some (.ipamIncompatible cni.ipam.type cni.type))
  else if cni.type = PluginAzureVNET then
    firstErr
      (if provider = ProviderAKS ∨ provider = "" then none
       else some (.providerIncompatible provider cni.type))
      (if cni.ipam.type = IPAMPluginAzureVNET then none
       else some (.ipamIncompatible cni.ipam.type cni.type))
  else some (.invalidCNIType cni.type)

/-- The body of the IP-pool loop (source lines 1161-1223) for one pool:
address-family checks (BPF autodetection requirements, no IPIP on IPv6
pools), then the encapsulation-versus-CNI rules. -/
def poolErr (cni : CNISpec) (cn : CalicoNetworkSpec) (bpfDataplane : Bool)
    (pool : IPPool) : Option VError :=
  let familyErr : Option VError :=
    if containsColon pool.cidr = false then
      if bpfDataplane ∧ cn.nodeAddressAutodetectionV4 = none then
        some .autodetectV4RequiredForBPF
      else none
    else
      if pool.encapsulation = EncapsulationIPIP ∨ pool.encapsulation = EncapsulationIPIPCrossSubnet then
        some (.ipipOnIPv6Pool pool.cidr)
      else if bpfDataplane ∧ cn.nodeAddressAutodetectionV6 = none then
        some .autodetectV6RequiredForBPF
      else none
  firstErr familyErr
    (if cni.type = PluginCalico then
      if cni.ipam.type = IPAMPluginCalico then
        if pool.encapsulation = EncapsulationIPIP ∨ pool.encapsulation = EncapsulationIPIPCrossSubnet then
          if cn.bgp = none ∨ cn.bgp = some BGPDisabled then some .ipipRequiresBGP else none
        else if pool.encapsulation = EncapsulationVXLAN ∨ pool.encapsulation = EncapsulationVXLANCrossSubnet then
          none
        else if pool.encapsulation = EncapsulationNone then
          if cn.bgp = none ∨ cn.bgp = some BGPDisabled then some .unencapsulatedRequiresBGP else none
        else none
      else if cni.ipam.type = IPAMPluginHostLocal then
        if pool.encapsulation = EncapsulationVXLAN ∨ pool.encapsulation = EncapsulationVXLANCrossSubnet then
          some (.vxlanInvalidWithHostLocal pool.encapsulation)
        else none
      else none
    else
      firstErr
        (if pool.encapsulation = "" then none
         else if pool.encapsulation = EncapsulationNone then none
         else some (.encapInvalidForNonCalicoCNI pool.encapsulation))
        (if cn.bgp = some BGPEnabled then some .bgpNotSupportedNonCalicoCNI else none))

/-- The VPP-specific validation (source lines 1226-1239). -/
def vppErr (variant : String) (cni : CNISpec) (cn : CalicoNetworkSpec) : Option VError :=
  if cn.linuxDataplane = some LinuxDataplaneVPP then
    if variant ≠ VariantCalico then some (.vppRequiresCalicoVariant variant)
    else if cni.type ≠ PluginCalico then some (.vppRequiresCalicoCNI cni.type)
    else if cn.bgp = none ∨ cn.bgp = some BGPDisabled then some .vppRequiresBGP
    else if cn.hostPorts = some HostPortsDisabled then some .vppRequiresHostPorts
    else none
  else none

/-- The HostPorts checks (source lines 1255-1266): an explicitly enabled
HostPorts needs the Calico CNI, and the value must be legal. -/
def hostPortsErr (cni : CNISpec) (ohp : Option String) : Option VError :=
  match ohp with
  | none => none
  | some hp =>
    if hp = HostPortsEnabled ∧ cni.type ≠ PluginCalico then some .hostPortsOnlyCalicoCNI
    else validateHostPorts hp

/-- The pod-readiness-delay checks (source lines 1290-1303). -/
def policyTimeoutErr (cn : CalicoNetworkSpec) : Option VError :=
  match cn.linuxPolicySetupTimeoutSeconds with
  | none => none
  | some v =>
    if v < 0 then some .policySetupTimeoutNegative
    else
      match cn.linuxDataplane with
      | none => some .policySetupTimeoutRequiresDataplane
      | some dp =>
          if dp ≠ LinuxDataplaneIptables ∧ dp ≠ LinuxDataplaneBPF ∧ dp ≠ LinuxDataplaneNftables then
            some .policySetupTimeoutWrongDataplane
          else none

/-- The `spec.calicoNetwork` block (source lines 1156-1304), entered
only when the sub-configuration is present: the IP-pool loop, then VPP,
autodetection, HostPorts, interface-mode, forwarding, sysctl and
readiness-delay checks, in source order. -/
def calicoNetworkErr (ext : Externals) (variant : String) (cni : CNISpec)
    (ocn : Option CalicoNetworkSpec) : Option VError :=
  match ocn with
  | none => none
  | some cn =>
    let bpf := cn.linuxDataplane = some LinuxDataplaneBPF
    firstErr (cn.ipPools.findSome? (poolErr cni cn bpf))
      (firstErr (vppErr variant cni cn)
        (firstErr
          (match cn.nodeAddressAutodetectionV4 with
            | none => none
            | some ad => validateNodeAddressDetection ext ad)
          (firstErr
            (match cn.nodeAddressAutodetectionV6 with
              | none => none
              | some ad => validateNodeAddressDetection ext ad)
            (firstErr (hostPortsErr cni cn.hostPorts)
              (firstErr
                (if cn.multiInterfaceMode.isSome ∧ cni.type ≠ PluginCalico then
                  some .multiInterfaceModeOnlyCalicoCNI
                 else none)
                (firstErr
                  (if cn.containerIPForwarding.isSome ∧ cni.type ≠ PluginCalico then
                    some .containerIPForwardingOnlyCalicoCNI
                   else none)
                  (firstErr
                    (match cn.sysctl with
                      | none => none
                      | some data => (ext.verifySysctl data).map .sysctlInvalid)
                    (policyTimeoutErr cn))))))))

/-- The control-plane node-selector checks (source lines 1324-1331). -/
def selectorLookup (m : List (String × String)) (k : String) : Option String :=
  (m.find? (fun p => p.1 = k)).map (fun p => p.2)

/-- The legacy and current OS label keys must pin linux (source lines
1324-1331). -/
def cpSelectorErr (sel : Option (List (String × String))) : Option VError :=
  match sel with
  | none => none
  | some m =>
    firstErr
      (match selectorLookup m "beta.kubernetes.io/os" with
        | some v => if v ≠ "linux" then some (.controlPlaneNodeSelectorOS "beta.kubernetes.io/os" v) else none
        | none => none)
      (match selectorLookup m "kubernetes.io/os" with
        | some v => if v ≠ "linux" then some (.controlPlaneNodeSelectorOS "kubernetes.io/os" v) else none
        | none => none)

/-- The fixed allow-set of `spec.componentResources` component names
(source lines 1337-1341). -/
def validComponentName (n : String) : Bool :=
  n = ComponentNameKubeControllers ∨ n = ComponentNameNode ∨ n = ComponentNameTypha

/-- The non-privileged gating (source lines 1350-1362). -/
def nonPrivilegedErr (s : InstallationSpec) : Option VError :=
  if s.nonPrivileged = some NonPrivilegedEnabled then
    firstErr
      (match s.calicoNetwork with
        | some cn =>
            if cn.linuxDataplane = some LinuxDataplaneBPF then some .nonPrivilegedBPF else none
        | none => none)
      (if s.variant = VariantTigeraSecureEnterprise then some .nonPrivilegedEnterprise else none)
  else none

/-- Modelled from the spec: `render.GetIPv4Pool` - the IPv4 pool of the
pool list, if one exists (the first pool whose CIDR is not IPv6). -/
def getIPv4Pool (pools : List IPPool) : Option IPPool :=
  pools.find? (fun p => containsColon p.cidr = false)

/-- The Windows gating (source lines 1412-1432): with Windows enabled
the service-endpoint data must be complete and, with the Calico CNI,
service CIDRs must be given and an IPv4 pool must use VXLAN or None;
with Windows disabled, `spec.windowsNodes` must be unset. -/
def windowsErr (cni : CNISpec) (s : InstallationSpec) (f : ClusterFacts) : Option VError :=
  if f.windowsEnabled then
    if f.endpointHost = "" ∨ f.endpointPort = "" then some .winEndpointMissing
    else if cni.type = PluginCalico then
      firstErr
        (if s.serviceCIDRs.length = 0 then some .winServiceCIDRsRequired else none)
        (match s.calicoNetwork with
          | none => none
          | some cn =>
            match getIPv4Pool cn.ipPools with
            | none => none
            | some p =>
                if p.encapsulation ≠ EncapsulationVXLAN ∧ p.encapsulation ≠ EncapsulationNone then
                  some (.winV4EncapUnsupported p.encapsulation)
                else none)
    else none
  else if s.windowsNodes.isSome then some .windowsNodesNotValid
  else none

/-- Whether CNI logging limits are present
(`instance.Spec.Logging != nil && instance.Spec.Logging.CNI != nil`,
source line 1407). -/
def loggingCNIPresent : Option LoggingSpec → Bool
  | some lg => lg.cni.isSome
  | none => false

/-- `validateCustomResource` (source lines 1058-1443): the fail-fast
sequence of every rule group, in source order.  A nil `spec.cni` is the
first check; every later group only runs if all earlier groups passed,
which `firstErr` captures. -/
def validateCustomResource (ext : Externals) (s : InstallationSpec)
    (f : ClusterFacts) : Option VError :=
  match s.cni with
  | none => some .cniNotDefined
  | some cni =>
    firstErr (cniPluginErr cni s.kubernetesProvider s.logging)
    (firstErr (calicoNetworkErr ext s.variant cni s.calicoNetwork)
    (firstErr
      (if s.flexVolumePath ≠ "None" ∧ pathIsAbs s.flexVolumePath = false then
        some (.flexVolumePathNotAbs s.flexVolumePath)
       else none)
    (firstErr
      (if s.kubeletVolumePluginPath ≠ "None" ∧ pathIsAbs s.kubeletVolumePluginPath = false then
        some (.kubeletVolumePluginPathNotAbs s.kubeletVolumePluginPath)
       else none)
    (firstErr
      (if s.nodeUpdateStrategyType ≠ RollingUpdateType then
        some .nodeUpdateStrategyUnsupported
       else none)
    (firstErr (cpSelectorErr s.controlPlaneNodeSelector)
    (firstErr
      (match s.controlPlaneReplicas with
        | some r => if r ≤ 0 then some .controlPlaneReplicasNonPositive else none
        | none => none)
    (firstErr
      (s.componentResources.findSome? (fun r =>
        if validComponentName r.componentName then none
        else some (.componentResourceUnsupported r.componentName)))
    (firstErr (nonPrivilegedErr s)
    (firstErr
      (match s.calicoNodeDaemonSet with
        | none => none
        | some ds =>
          let e1 := ext.validateNodeDS ds
          let e2 := validateExclusiveInitContainers ds.initContainerNames
          if e1.isSome ∨ e2.isSome then some (.nodeDSInvalid e1 e2) else none)
    (firstErr
      (match s.calicoNodeWindowsDaemonSet with
        | none => none
        | some ds => (ext.validateNodeWinDS ds).map .nodeWinDSInvalid)
    (firstErr
      (match s.calicoKubeControllersDeployment with
        | none => none
        | some d => (ext.validateKubeControllers d).map .kubeControllersDeployInvalid)
    (firstErr
      (match s.typhaDeployment with
        | none => none
        | some d => (ext.validateTypha d).map .typhaDeployInvalid)
    (firstErr
      (match s.csiNodeDriverDaemonSet with
        | none => none
        | some ds => (ext.validateCSI ds).map .csiDSInvalid)
    (firstErr
      (if cni.type ≠ PluginCalico ∧ loggingCNIPresent s.logging = true then
        some .cniLoggingNonCalico
       else none)
    (firstErr (windowsErr cni s f)
    (firstErr
      (if s.fipsMode = some FIPSModeEnabled ∧ s.variant = VariantTigeraSecureEnterprise then
        some .fipsWithEnterprise
       else none)
      (if s.kubernetesProvider ≠ ProviderAKS ∧ s.azure.isSome then
        some .azureOnlyAKS
       else none)))))))))))))))))

/-- The state-passing form of `validateCustomResource`: the Go function
receives the Installation by pointer, and its body contains no
assignment through that pointer (every statement only reads), so the
state-passing translation returns the document unchanged on every
control path, alongside the verdict. -/
def validateCustomResourceExec (ext : Externals) (s : InstallationSpec)
    (f : ClusterFacts) : Option VError × InstallationSpec :=
  (validateCustomResource ext s f, s)

/-! ## Concrete fixtures for runs of the validator -/

/-- Trivially-accepting externals: every CIDR parses, every delegated
check passes.  Used for concrete runs that exercise the rules of the
sampled source itself. -/
def extOk : Externals where
  parseCIDRok := fun _ => true
  verifySysctl := fun _ => none
  validateNodeDS := fun _ => none
  validateNodeWinDS := fun _ => none
  validateKubeControllers := fun _ => none
  validateTypha := fun _ => none
  validateCSI := fun _ => none

/-- Externals whose CIDR parser rejects its input, standing for
`net.ParseCIDR` applied to strings (such as "nonsense") that the real
parser rejects. -/
def extNoCIDR : Externals :=
  { extOk with parseCIDRok := fun _ => false }

/-- Facts for a cluster without Windows support. -/
def factsNoWindows : ClusterFacts where
  windowsEnabled := false
  endpointHost := ""
  endpointPort := ""

/-- A benign document around a given CNI sub-configuration: every
optional field unset, both volume paths disabled with the None
sentinel, the RollingUpdate strategy, the provider unset.  Such a
document violates no rule group other than, possibly, the CNI/IPAM
group. -/
def baseSpec (c : CNISpec) : InstallationSpec where
  variant := VariantCalico
  cni := some c
  calicoNetwork := none
  logging := none
  kubernetesProvider := ""
  flexVolumePath := "None"
  kubeletVolumePluginPath := "None"
  nodeUpdateStrategyType := RollingUpdateType
  controlPlaneNodeSelector := none
  controlPlaneReplicas := none
  componentResources := []
  nonPrivileged := none
  calicoNodeDaemonSet := none
  calicoNodeWindowsDaemonSet := none
  calicoKubeControllersDeployment := none
  typhaDeployment := none
  csiNodeDriverDaemonSet := none
  serviceCIDRs := []
  windowsNodes := none
  fipsMode := none
  azure := none

/-- The benign document with CNI type `c` and IPAM type `i`. -/
def mkCniSpec (c i : String) : InstallationSpec := baseSpec ⟨c, ⟨i⟩⟩

/-- The benign document with no CNI sub-configuration at all. -/
def noCniSpec : InstallationSpec := { mkCniSpec "" "" with cni := none }

/-- The CNI/IPAM allow-sets exactly as the spec states them:
Calico admits Calico or HostLocal IPAM, GKE admits HostLocal, AmazonVPC
admits AmazonVPC, AzureVNET admits AzureVNET, and nothing else is
admitted. -/
def allowedPair (c i : String) : Bool :=
  decide ((c = PluginCalico ∧ (i = IPAMPluginCalico ∨ i = IPAMPluginHostLocal))
    ∨ (c = PluginGKE ∧ i = IPAMPluginHostLocal)
    ∨ (c = PluginAmazonVPC ∧ i = IPAMPluginAmazonVPC)
    ∨ (c = PluginAzureVNET ∧ i = IPAMPluginAzureVNET))

/-- A calicoNetwork for the BPF dataplane with one IPv4 VXLAN pool and
IPv4 autodetection by firstFound. -/
def bpfV4CN : CalicoNetworkSpec where
  linuxDataplane := some LinuxDataplaneBPF
  ipPools := [⟨"192.168.0.0/16", EncapsulationVXLAN⟩]
  bgp := none
  nodeAddressAutodetectionV4 := some ⟨"", "", "", some true, [], none⟩
  nodeAddressAutodetectionV6 := none
  hostPorts := none
  multiInterfaceMode := none
  containerIPForwarding := none
  sysctl := none
  linuxPolicySetupTimeoutSeconds := none

/-- Calico/Calico document under the BPF dataplane with one IPv4 pool
and IPv4 autodetection set. -/
def bpfV4Spec : InstallationSpec :=
  { mkCniSpec PluginCalico IPAMPluginCalico with calicoNetwork := some bpfV4CN }

/-- The same document with `nodeAddressAutodetectionV4` removed. -/
def bpfV4SpecNoAuto : InstallationSpec :=
  { mkCniSpec PluginCalico IPAMPluginCalico with
    calicoNetwork := some { bpfV4CN with nodeAddressAutodetectionV4 := none } }

/-- Calico/Calico document under the BPF dataplane with one IPv6 VXLAN
pool and IPv6 autodetection set. -/
def bpfV6Spec : InstallationSpec :=
  { mkCniSpec PluginCalico IPAMPluginCalico with
    calicoNetwork := some
      { bpfV4CN with
        ipPools := [⟨"fd00:1234::/64", EncapsulationVXLAN⟩]
        nodeAddressAutodetectionV4 := none
        nodeAddressAutodetectionV6 := some ⟨"", "", "", some true, [], none⟩ } }

/-- A calicoNetwork with BGP explicitly enabled and no IP pools. -/
def azureBgpCN : CalicoNetworkSpec where
  linuxDataplane := none
  ipPools := []
  bgp := some BGPEnabled
  nodeAddressAutodetectionV4 := none
  nodeAddressAutodetectionV6 := none
  hostPorts := none
  multiInterfaceMode := none
  containerIPForwarding := none
  sysctl := none
  linuxPolicySetupTimeoutSeconds := none

/-- AzureVNET document (non-Calico CNI) with BGP explicitly enabled and
no IP pools. -/
def azureBgpSpec : InstallationSpec :=
  { mkCniSpec PluginAzureVNET IPAMPluginAzureVNET with calicoNetwork := some azureBgpCN }

/-! ## Lemmas about the wait and retry loops -/

/-- If the wait loop starts at second `k` with `r = 60 - k` seconds left
and the resource first becomes absent at second `t < 60`, it exits
reporting graceful completion at second `t`. -/
theorem waitLoop_graceful (q : Nat → InstQuery) (j : Nat) :
    ∀ r k t, k + r = gracefulWaitSeconds → k ≤ t → t < gracefulWaitSeconds →
      q (j + t) = .notFound → (∀ s, s < t → q (j + s) ≠ .notFound) →
      waitLoop q j k r = .gracefulComplete t := by
  intro r
  induction r with
  | zero =>
      intro k t hkr hkt ht _ _
      simp only [gracefulWaitSeconds] at hkr ht
      omega
  | succ r ih =>
      intro k t hkr hkt ht hq hmin
      by_cases hk : q (j + k) = .notFound
      · have hkt2 : k = t := by
          by_contra hne
          exact hmin k (lt_of_le_of_ne hkt hne) hk
        subst hkt2
        simp [waitLoop, hk]
      · have hkt' : k < t := by
          rcases eq_or_lt_of_le hkt with h | h
          · exact absurd (h ▸ hq) hk
          · exact h
        simp only [waitLoop]
        rw [if_neg hk]
        exact ih (k + 1) t (by omega) (by omega) ht hq hmin

/-- If the resource never becomes absent during the 60-second window,
the wait loop exits with the timeout outcome. -/
theorem waitLoop_timeout (q : Nat → InstQuery) (j : Nat) :
    ∀ r k, k + r = gracefulWaitSeconds →
      (∀ s, s < gracefulWaitSeconds → q (j + s) ≠ .notFound) →
      waitLoop q j k r = .timedOut := by
  intro r
  induction r with
  | zero => intro k _ _; simp [waitLoop]
  | succ r ih =>
      intro k hkr hall
      have hk : q (j + k) ≠ .notFound := hall k (by
        simp only [gracefulWaitSeconds] at hkr ⊢; omega)
      simp only [waitLoop]
      rw [if_neg hk]
      exact ih (k + 1) (by omega) hall

/-- If every query the initial loop can make fails, it gives up: with
`rl` retries left it makes `rl + 1` queries, all failing. -/
theorem initialLoop_allErrors (q : Nat → InstQuery) :
    ∀ rl i, (∀ m, m < rl + 1 → q (i + m) = .queryError) →
      initialLoop q i rl = .gaveUp := by
  intro rl
  induction rl with
  | zero =>
      intro i h
      have h0 : q i = .queryError := by simpa using h 0 (by omega)
      simp [initialLoop, h0]
  | succ rl ih =>
      intro i h
      have h0 : q i = .queryError := by simpa using h 0 (by omega)
      simp only [initialLoop, h0]
      exact ih (i + 1) (fun m hm => by
        have h1 := h (m + 1) (by omega)
        have h2 : i + (m + 1) = i + 1 + m := by omega
        rwa [h2] at h1)

/-- If the first `n` queries fail and the `(n+1)`-th does not, with
`n ≤ rl` retries left the loop verdict is decided by that query. -/
theorem initialLoop_tolerates (q : Nat → InstQuery) :
    ∀ n rl i, n ≤ rl → (∀ m, m < n → q (i + m) = .queryError) →
      (q (i + n) = .notFound → initialLoop q i rl = .noInstall)
    ∧ (∀ d, q (i + n) = .found d → initialLoop q i rl = .proceed d (i + n + 1)) := by
  intro n
  induction n with
  | zero =>
      intro rl i _ _
      constructor
      · intro h0
        simp only [Nat.add_zero] at h0
        cases rl <;> simp [initialLoop, h0]
      · intro d h0
        simp only [Nat.add_zero] at h0
        cases rl <;> simp [initialLoop, h0]
  | succ n ih =>
      intro rl i hn hfail
      have h0 : q i = .queryError := by simpa using hfail 0 (by omega)
      obtain ⟨rl2, rfl⟩ : ∃ rl2, rl = rl2 + 1 := ⟨rl - 1, by omega⟩
      have hshift : ∀ m, m < n → q (i + 1 + m) = .queryError := fun m hm => by
        have h1 := hfail (m + 1) (by omega)
        have h2 : i + (m + 1) = i + 1 + m := by omega
        rwa [h2] at h1
      have hrec := ih rl2 (i + 1) (by omega) hshift
      have hidx : i + (n + 1) = i + 1 + n := by omega
      constructor
      · intro hq
        simp only [initialLoop, h0]
        exact hrec.1 (by rwa [hidx] at hq)
      · intro d hq
        simp only [initialLoop, h0]
        have h2 := hrec.2 d (by rwa [hidx] at hq)
        rw [h2]
        congr 1
        omega

/-! ## Claim theorems: lifecycle coordinator -/

/-- C1 (amended): in every run where the Installation is present with
its deletion timestamp set, the watcher enters a bounded wait polling
every 1 second (not 5) for up to 60 seconds total: if the resource
becomes absent at elapsed second `t < 60` the watcher exits cleanly
reporting graceful termination complete, and if no poll in the window
sees it absent the watcher reports the timeout and exits anyway.  The
final conjuncts pin the window and cadence constants of the source. -/
theorem termination_bounded_wait_spec :
    (∀ q j t, initialPoll q = InitRes.proceed true j →
        t < gracefulWaitSeconds → q (j + t) = InstQuery.notFound →
        (∀ s, s < t → q (j + s) ≠ InstQuery.notFound) →
        terminationWatcher q = WatchOutcome.gracefulComplete t)
  ∧ (∀ q j, initialPoll q = InitRes.proceed true j →
        (∀ t, t < gracefulWaitSeconds → q (j + t) ≠ InstQuery.notFound) →
        terminationWatcher q = WatchOutcome.timedOut)
  ∧ gracefulWaitSeconds = 60 ∧ waitLoopSleepSeconds = 1 := by
  refine ⟨?_, ?_, rfl, rfl⟩
  · intro q j t hinit ht hq hmin
    unfold terminationWatcher
    rw [hinit]
    exact waitLoop_graceful q j gracefulWaitSeconds 0 t (by omega) (by omega) ht hq hmin
  · intro q j hinit hall
    unfold terminationWatcher
    rw [hinit]
    exact waitLoop_timeout q j gracefulWaitSeconds 0 (by omega) hall

/-- Witness for C1: a concrete run.  The Installation is present and
being deleted at the initial query (index 0), still present at the first
wait poll (elapsed second 0, query index 1), and gone at the second wait
poll (elapsed second 1, query index 2): the watcher exits cleanly one
second into the wait. -/
theorem termination_bounded_wait_witness :
    terminationWatcher (fun i => if i ≤ 1 then InstQuery.found true else InstQuery.notFound)
      = WatchOutcome.gracefulComplete 1 :=
  termination_bounded_wait_spec.1
    (fun i => if i ≤ 1 then InstQuery.found true else InstQuery.notFound) 1 1
    (by decide) (by decide) (by decide)
    (by decide)

/-- Counterexample to C1 as stated ("polls every 5 seconds"): the wait
loop sleeps 1 second between queries (source line 350), so in a run
where the deleting Installation is still present at the wait polls of
elapsed seconds 0 and 1 and gone at second 2, the watcher reports
completion at elapsed second 2 - under a 5-second cadence every poll,
hence every completion time, would fall on a multiple of 5 seconds.
And in a run where the resource never disappears, the loop issues 60
queries in the 60-second window, where a 5-second cadence would issue
at most 13. -/
theorem termination_poll_interval_cex :
    terminationWatcher (fun i => if i ≤ 2 then InstQuery.found true else InstQuery.notFound)
      = WatchOutcome.gracefulComplete 2
  ∧ 2 % 5 ≠ 0
  ∧ waitPollTally (fun _ => InstQuery.found true) 1 0 gracefulWaitSeconds = 60
  ∧ ¬ (60 ≤ 13) := by
  refine ⟨by decide, by decide, by decide, by decide⟩

/-- C2: the initial poll loop of the termination watcher tolerates up to
5 consecutive query failures, each followed by a 1-second backoff and a
retry, and the 6th consecutive failure makes the watcher give up and
return (the coordinator then proceeds to exit).  When a query within the
tolerance budget succeeds, the loop's verdict is decided by it. -/
theorem termination_retry_budget_spec :
    (∀ q, (∀ i, i ≤ 5 → q i = InstQuery.queryError) →
        terminationWatcher q = WatchOutcome.gaveUpErrors)
  ∧ (∀ q n, n ≤ 5 → (∀ i, i < n → q i = InstQuery.queryError) →
        (q n = InstQuery.notFound → terminationWatcher q = WatchOutcome.exitNoInstall)
      ∧ (q n = InstQuery.found false → terminationWatcher q = WatchOutcome.exitNotDeleting)
      ∧ (q n = InstQuery.found true →
           terminationWatcher q = waitLoop q (n + 1) 0 gracefulWaitSeconds))
  ∧ initialRetrySleepSeconds = 1 ∧ maxInitialRetries = 5 := by
  refine ⟨?_, ?_, rfl, rfl⟩
  · intro q hall
    unfold terminationWatcher initialPoll
    rw [initialLoop_allErrors q maxInitialRetries 0 (fun m hm => by
      have := hall m (by simpa [maxInitialRetries] using Nat.lt_succ_iff.mp (by
        simpa [maxInitialRetries] using hm))
      simpa using this)]
  · intro q n hn hfail
    have h := initialLoop_tolerates q n maxInitialRetries 0
      (by simpa [maxInitialRetries] using hn)
      (fun m hm => by simpa using hfail m hm)
    refine ⟨?_, ?_, ?_⟩
    · intro hq
      unfold terminationWatcher initialPoll
      rw [h.1 (by simpa using hq)]
    · intro hq
      unfold terminationWatcher initialPoll
      rw [h.2 false (by simpa using hq)]
    · intro hq
      unfold terminationWatcher initialPoll
      rw [h.2 true (by simpa using hq)]
      simp

/-- Witness for C2: three consecutive query failures followed by a
NotFound answer - the watcher tolerates the failures and exits cleanly
because there is no Installation. -/
theorem termination_retry_budget_witness :
    terminationWatcher (fun i => if i < 3 then InstQuery.queryError else InstQuery.notFound)
      = WatchOutcome.exitNoInstall :=
  ((termination_retry_budget_spec.2.1
      (fun i => if i < 3 then InstQuery.queryError else InstQuery.notFound) 3
      (by decide) (by decide)).1 (by decide))

/-- C3: the preflight external-store consistency check.  If the settings
declare log storage as external and the internal-storage-only secret is
present, the check returns an error (main exits nonzero on any error it
returns); if the settings declare log storage as internal and the
external-storage-only secret is present, the check returns an error; if
the respective secret is absent (NotFound), the check returns success. -/
theorem verify_configuration_spec :
    (∀ e, verifyConfiguration true SecretGet.found e = some VerifyErr.internalSecretFound)
  ∧ (∀ i, verifyConfiguration false i SecretGet.found = some VerifyErr.externalSecretFound)
  ∧ (∀ e, verifyConfiguration true SecretGet.notFound e = none)
  ∧ (∀ i, verifyConfiguration false i SecretGet.notFound = none) :=
  ⟨fun _ => rfl, fun _ => rfl, fun _ => rfl, fun _ => rfl⟩

/-! ## Lemmas about the fail-fast composition -/

/-- A fail-fast chain succeeds exactly when both links do. -/
theorem firstErr_eq_none (a b : Option VError) :
    firstErr a b = none ↔ a = none ∧ b = none := by
  cases a <;> simp [firstErr]

/-- A chain whose tail always succeeds is its head. -/
theorem firstErr_none_right (a : Option VError) : firstErr a none = a := by
  cases a <;> rfl

/-- If the whole validation succeeds, then in particular its CNI-plugin
group and its calicoNetwork group succeeded. -/
theorem validate_none_components (ext : Externals) (s : InstallationSpec)
    (f : ClusterFacts) (cni : CNISpec) (hcni : s.cni = some cni)
    (hv : validateCustomResource ext s f = none) :
    cniPluginErr cni s.kubernetesProvider s.logging = none
    ∧ calicoNetworkErr ext s.variant cni s.calicoNetwork = none := by
  unfold validateCustomResource at hv
  rw [hcni] at hv
  simp only [firstErr_eq_none] at hv
  exact ⟨hv.1, hv.2.1⟩


/-- A CNI-plugin group that succeeds only does so on an allowed
CNI/IPAM pairing. -/
theorem cniPluginErr_none_allowed (c : CNISpec) (p : String)
    (l : Option LoggingSpec) (h : cniPluginErr c p l = none) :
    allowedPair c.type c.ipam.type = true := by
  unfold cniPluginErr at h
  simp only [allowedPair, decide_eq_true_eq]
  split_ifs at h <;> simp [firstErr] at h <;> tauto

/-- On the benign document the whole validation reduces to the
CNI-plugin group: every other rule group evaluates to success there. -/
theorem validate_baseSpec (c i : String) :
    validateCustomResource extOk (mkCniSpec c i) factsNoWindows
      = cniPluginErr ⟨c, ⟨i⟩⟩ "" none := by
  have h : validateCustomResource extOk (mkCniSpec c i) factsNoWindows
      = firstErr (cniPluginErr ⟨c, ⟨i⟩⟩ "" none)
          (firstErr
            (if c ≠ PluginCalico ∧ loggingCNIPresent none = true then
              some VError.cniLoggingNonCalico
             else none) none) := rfl
  rw [h]
  have h2 : (if c ≠ PluginCalico ∧ loggingCNIPresent none = true then
      some VError.cniLoggingNonCalico
    else none) = none := by simp [loggingCNIPresent]
  rw [h2, show firstErr (none : Option VError) none = none from rfl, firstErr_none_right]

/-- An allowed pairing passes the CNI-plugin group of the benign
document. -/
theorem cniPluginErr_allowed_none (c i : String)
    (h : allowedPair c i = true) :
    cniPluginErr ⟨c, ⟨i⟩⟩ "" none = none := by
  simp only [allowedPair, decide_eq_true_eq] at h
  rcases h with ⟨hc, hi | hi⟩ | ⟨hc, hi⟩ | ⟨hc, hi⟩ | ⟨hc, hi⟩ <;>
    subst hc <;> subst hi <;> rfl

/-! ## Claim theorems: configuration validator -/

/-- C4: validation enforces the CNI/IPAM allow-sets.  Whenever the
document's CNI/IPAM pairing is outside the allow-sets (including every
unrecognized CNI type), validation fails, whatever the rest of the
document and the cluster facts are; and on an otherwise benign
document, validation succeeds exactly on the allowed pairings
(Calico admits Calico or HostLocal, GKE admits HostLocal, AmazonVPC
admits AmazonVPC, AzureVNET admits AzureVNET). -/
theorem cni_ipam_allowset_spec :
    (∀ ext s f c, s.cni = some c →
        allowedPair c.type c.ipam.type = false →
        validateCustomResource ext s f ≠ none)
  ∧ (∀ c i, validateCustomResource extOk (mkCniSpec c i) factsNoWindows = none
        ↔ allowedPair c i = true) := by
  constructor
  · intro ext s f c hcni hnot hv
    have h := cniPluginErr_none_allowed c s.kubernetesProvider s.logging
      (validate_none_components ext s f c hcni hv).1
    rw [hnot] at h
    cases h
  · intro c i
    rw [validate_baseSpec]
    exact ⟨fun h => cniPluginErr_none_allowed ⟨c, ⟨i⟩⟩ "" none h,
      fun h => cniPluginErr_allowed_none c i h⟩

/-- Witness for C4: the pairing of Scenario B, Calico CNI with
AmazonVPC IPAM, is rejected on an otherwise benign document, while
Calico CNI with Calico IPAM is accepted on the same document. -/
theorem cni_ipam_allowset_witness :
    validateCustomResource extOk (mkCniSpec PluginCalico IPAMPluginAmazonVPC) factsNoWindows ≠ none
  ∧ validateCustomResource extOk (mkCniSpec PluginCalico IPAMPluginCalico) factsNoWindows = none :=
  ⟨cni_ipam_allowset_spec.1 extOk (mkCniSpec PluginCalico IPAMPluginAmazonVPC) factsNoWindows
      ⟨PluginCalico, ⟨IPAMPluginAmazonVPC⟩⟩ rfl (by decide),
    (cni_ipam_allowset_spec.2 PluginCalico IPAMPluginCalico).mpr (by decide)⟩

/-- C10: a document with no CNI sub-configuration fails immediately
with the dedicated error, whatever the rest of the document, the
externals and the facts are - no other rule group gets to run - and
that error's message is the verbatim source string. -/
theorem cni_must_be_defined_spec :
    (∀ ext s f, s.cni = none →
        validateCustomResource ext s f = some VError.cniNotDefined)
  ∧ VError.message VError.cniNotDefined = "spec.cni must be defined" := by
  constructor
  · intro ext s f h
    unfold validateCustomResource
    rw [h]
  · rfl

/-- Witness for C10: the benign document with `cni` removed is rejected
with exactly the dedicated error. -/
theorem cni_must_be_defined_witness :
    validateCustomResource extOk noCniSpec factsNoWindows = some VError.cniNotDefined :=
  cni_must_be_defined_spec.1 extOk noCniSpec factsNoWindows rfl

/-- If the whole validation succeeds, every pool of the calicoNetwork
passed the per-pool checks (with the BPF flag the source computes
before the loop). -/
theorem validate_none_poolErr (ext : Externals) (s : InstallationSpec)
    (f : ClusterFacts) (cni : CNISpec) (cn : CalicoNetworkSpec) (p : IPPool)
    (hcni : s.cni = some cni) (hcn : s.calicoNetwork = some cn)
    (hp : p ∈ cn.ipPools)
    (hv : validateCustomResource ext s f = none) :
    poolErr cni cn (decide (cn.linuxDataplane = some LinuxDataplaneBPF)) p = none := by
  have hcal := (validate_none_components ext s f cni hcni hv).2
  rw [hcn] at hcal
  simp only [calicoNetworkErr, firstErr_eq_none] at hcal
  exact List.findSome?_eq_none_iff.mp hcal.1 p hp

/-- A document whose validation succeeds has a CNI sub-configuration. -/
theorem validate_none_cni (ext : Externals) (s : InstallationSpec)
    (f : ClusterFacts) (hv : validateCustomResource ext s f = none) :
    ∃ cni, s.cni = some cni := by
  cases hcni : s.cni with
  | none =>
      unfold validateCustomResource at hv
      rw [hcni] at hv
      simp at hv
  | some cni => exact ⟨cni, rfl⟩

/-- C5 (both address families): under the BPF dataplane, the presence
of an IPv4 pool with `nodeAddressAutodetectionV4` unset makes
validation fail, and the presence of an IPv6 pool with
`nodeAddressAutodetectionV6` unset makes validation fail - whatever
the rest of the document; and the concrete otherwise-valid BPF
documents with the respective autodetection set validate cleanly. -/
theorem bpf_autodetect_spec :
    (∀ ext s f cn p, s.calicoNetwork = some cn →
        cn.linuxDataplane = some LinuxDataplaneBPF →
        p ∈ cn.ipPools → containsColon p.cidr = false →
        cn.nodeAddressAutodetectionV4 = none →
        validateCustomResource ext s f ≠ none)
  ∧ (∀ ext s f cn p, s.calicoNetwork = some cn →
        cn.linuxDataplane = some LinuxDataplaneBPF →
        p ∈ cn.ipPools → containsColon p.cidr = true →
        cn.nodeAddressAutodetectionV6 = none →
        validateCustomResource ext s f ≠ none)
  ∧ validateCustomResource extOk bpfV4Spec factsNoWindows = none
  ∧ validateCustomResource extOk bpfV6Spec factsNoWindows = none := by
  refine ⟨?_, ?_, by decide, by decide⟩
  · intro ext s f cn p hcn hdp hp hip h4 hv
    obtain ⟨cni, hcni⟩ := validate_none_cni ext s f hv
    have hpe := validate_none_poolErr ext s f cni cn p hcni hcn hp hv
    simp [poolErr, hip, hdp, h4, firstErr] at hpe
  · intro ext s f cn p hcn hdp hp hip h6 hv
    obtain ⟨cni, hcni⟩ := validate_none_cni ext s f hv
    have hpe := validate_none_poolErr ext s f cni cn p hcni hcn hp hv
    by_cases hipip : p.encapsulation = EncapsulationIPIP ∨ p.encapsulation = EncapsulationIPIPCrossSubnet
    · simp [poolErr, hip, hipip, firstErr] at hpe
    · simp [poolErr, hip, hipip, hdp, h6, firstErr] at hpe

/-- Witness for C5: the concrete BPF document with an IPv4 pool and no
IPv4 autodetection is rejected (and, by the theorem's last conjuncts,
the same document with autodetection set is accepted). -/
theorem bpf_autodetect_witness :
    validateCustomResource extOk bpfV4SpecNoAuto factsNoWindows ≠ none :=
  bpf_autodetect_spec.1 extOk bpfV4SpecNoAuto factsNoWindows
    { bpfV4CN with nodeAddressAutodetectionV4 := none }
    ⟨"192.168.0.0/16", EncapsulationVXLAN⟩ rfl rfl (by decide) (by decide) rfl

/-- When every CIDR of the list parses, the CIDR scan finds nothing. -/
theorem firstBadCIDR_none (ext : Externals) :
    ∀ l, (∀ c ∈ l, ext.parseCIDRok c = true) → firstBadCIDR ext l = none := by
  intro l
  induction l with
  | nil => intro _; rfl
  | cons c rest ih =>
      intro h
      have hc : ext.parseCIDRok c = true := h c (by simp)
      simp only [firstBadCIDR, hc, if_pos]
      exact ih fun d hd => h d (by simp [hd])

/-- When some CIDR of the list does not parse, the CIDR scan reports
one. -/
theorem firstBadCIDR_some (ext : Externals) :
    ∀ l c, c ∈ l → ext.parseCIDRok c = false → firstBadCIDR ext l ≠ none := by
  intro l
  induction l with
  | nil => intro c hc; simp at hc
  | cons d rest ih =>
      intro c hc hbad
      rcases List.mem_cons.mp hc with rfl | hmem
      · simp [firstBadCIDR, hbad]
      · by_cases hd : ext.parseCIDRok d = true
        · simp only [firstBadCIDR, hd, if_pos]
          exact ih c hmem hbad
        · simp [firstBadCIDR, hd]

/-- C6 (amended): a node-address-autodetection configuration with more
than one method set fails validation; the reported rule is the
exclusivity rule whenever every listed CIDR parses (in particular
whenever `cidrs` is empty); and a CIDR that does not parse is itself a
validation failure, reported first. -/
theorem autodetect_exclusivity_spec :
    (∀ ext ad, 2 ≤ numEnabledMethods ad →
        validateNodeAddressDetection ext ad ≠ none)
  ∧ (∀ ext ad, 2 ≤ numEnabledMethods ad →
        (∀ c ∈ ad.cidrs, ext.parseCIDRok c = true) →
        validateNodeAddressDetection ext ad = some VError.autodetectExclusive)
  ∧ (∀ ext ad c, c ∈ ad.cidrs → ext.parseCIDRok c = false →
        validateNodeAddressDetection ext ad ≠ none) := by
  refine ⟨?_, ?_, ?_⟩
  · intro ext ad h2 hv
    unfold validateNodeAddressDetection at hv
    cases h : (if ad.cidrs.length ≠ 0 then firstBadCIDR ext ad.cidrs else none) with
    | some c => rw [h] at hv; simp at hv
    | none => rw [h, if_pos (by omega)] at hv; simp at hv
  · intro ext ad h2 hall
    unfold validateNodeAddressDetection
    have h : (if ad.cidrs.length ≠ 0 then firstBadCIDR ext ad.cidrs else none) = none := by
      by_cases hl : ad.cidrs.length ≠ 0
      · rw [if_pos hl]; exact firstBadCIDR_none ext ad.cidrs hall
      · rw [if_neg hl]
    rw [h, if_pos (by omega)]
  · intro ext ad c hc hbad hv
    unfold validateNodeAddressDetection at hv
    have hl : ad.cidrs.length ≠ 0 := by
      cases hcl : ad.cidrs with
      | nil => rw [hcl] at hc; simp at hc
      | cons d t => simp [hcl]
    rw [if_pos hl] at hv
    cases h : firstBadCIDR ext ad.cidrs with
    | none => exact firstBadCIDR_some ext ad.cidrs c hc hbad h
    | some d => rw [h] at hv; simp at hv

/-- Witness for C6: interface and firstFound both set - the exclusivity
rule fires. -/
theorem autodetect_exclusivity_witness :
    validateNodeAddressDetection extOk ⟨"eth0", "", "", some true, [], none⟩
      = some VError.autodetectExclusive :=
  autodetect_exclusivity_spec.2.1 extOk ⟨"eth0", "", "", some true, [], none⟩
    (by decide) (by simp)

/-- Counterexample to C6 as stated: with two methods set (skipInterface
and a non-empty CIDR list) but a CIDR the parser rejects, the failure
reported is the CIDR-parse error, not the exclusivity rule - the source
checks the CIDRs before the exclusivity count. -/
theorem autodetect_exclusivity_cex :
    validateNodeAddressDetection extNoCIDR ⟨"", "eth1", "", none, ["nonsense"], none⟩
      = some (VError.invalidAutodetectCIDR "nonsense")
  ∧ numEnabledMethods ⟨"", "eth1", "", none, ["nonsense"], none⟩ = 2
  ∧ VError.invalidAutodetectCIDR "nonsense" ≠ VError.autodetectExclusive := by
  refine ⟨by decide, by decide, by decide⟩

/-- C7 (amended): with a non-Calico CNI, a pool whose encapsulation is
neither None nor unset makes validation fail, and BGP explicitly
enabled makes validation fail whenever at least one IP pool is present
(the source runs both checks inside the per-pool loop). -/
theorem noncalico_pool_rules_spec :
    (∀ ext s f cni cn p, s.cni = some cni → cni.type ≠ PluginCalico →
        s.calicoNetwork = some cn → p ∈ cn.ipPools →
        p.encapsulation ≠ EncapsulationNone → p.encapsulation ≠ "" →
        validateCustomResource ext s f ≠ none)
  ∧ (∀ ext s f cni cn p, s.cni = some cni → cni.type ≠ PluginCalico →
        s.calicoNetwork = some cn → p ∈ cn.ipPools →
        cn.bgp = some BGPEnabled →
        validateCustomResource ext s f ≠ none) := by
  constructor
  · intro ext s f cni cn p hcni hc hcn hp h1 h2 hv
    have hpe := validate_none_poolErr ext s f cni cn p hcni hcn hp hv
    simp [poolErr, hc, h1, h2, firstErr_eq_none] at hpe
  · intro ext s f cni cn p hcni hc hcn hp hb hv
    have hpe := validate_none_poolErr ext s f cni cn p hcni hcn hp hv
    simp [poolErr, hc, hb, firstErr_eq_none] at hpe

/-- Witness for C7: an AmazonVPC document with a VXLAN pool is
rejected. -/
theorem noncalico_pool_rules_witness :
    validateCustomResource extOk
      { mkCniSpec PluginAmazonVPC IPAMPluginAmazonVPC with
        calicoNetwork := some
          { azureBgpCN with
            bgp := none
            ipPools := [⟨"10.0.0.0/8", EncapsulationVXLAN⟩] } }
      factsNoWindows ≠ none :=
  noncalico_pool_rules_spec.1 extOk
    { mkCniSpec PluginAmazonVPC IPAMPluginAmazonVPC with
      calicoNetwork := some
        { azureBgpCN with
          bgp := none
          ipPools := [⟨"10.0.0.0/8", EncapsulationVXLAN⟩] } }
    factsNoWindows ⟨PluginAmazonVPC, ⟨IPAMPluginAmazonVPC⟩⟩
    { azureBgpCN with
      bgp := none
      ipPools := [⟨"10.0.0.0/8", EncapsulationVXLAN⟩] }
    ⟨"10.0.0.0/8", EncapsulationVXLAN⟩
    rfl (by decide) rfl (by decide) (by decide) (by decide)

/-- Counterexample to C7 as stated: a non-Calico (AzureVNET) document
with BGP explicitly enabled but an empty pool list passes validation -
the BGP check of the source sits inside the per-pool loop, which never
runs. -/
theorem noncalico_pool_rules_cex :
    validateCustomResource extOk azureBgpSpec factsNoWindows = none
  ∧ azureBgpSpec.cni = some ⟨PluginAzureVNET, ⟨IPAMPluginAzureVNET⟩⟩
  ∧ PluginAzureVNET ≠ PluginCalico
  ∧ azureBgpSpec.calicoNetwork = some azureBgpCN
  ∧ azureBgpCN.bgp = some BGPEnabled := by
  refine ⟨by decide, rfl, by decide, rfl, rfl⟩

/-- C8: validation is deterministic and idempotent - the verdict (and,
through the error value, the rule identity and message) is a function
of the (document, externals, facts) triple alone, and a second run on
the document the first run hands back yields the same verdict. -/
theorem validate_deterministic_spec :
    ∀ ext s f,
      validateCustomResource ext s f = validateCustomResource ext s f
    ∧ validateCustomResource ext (validateCustomResourceExec ext s f).2 f
        = validateCustomResource ext s f :=
  fun _ _ _ => ⟨rfl, rfl⟩

/-- C9: validation never mutates the document - the state-passing form
of the validator returns the input document unchanged on every path,
pass or fail, and reads cluster state only through the facts bundle it
is handed (both validator arguments beside the document are explicit
parameters of the embedding). -/
theorem validate_no_mutation_spec :
    ∀ ext s f, (validateCustomResourceExec ext s f).2 = s :=
  fun _ _ _ => rfl
